import Mathlib

/-!
Pong: a shallow embedding of `pong.cpp` and proofs about its simulation core

The C++ type `int` is modelled by `Int`.  In `Paddle::move` and `Ball::predictedYPosition`
every arithmetic result is wrapped to 32 bits (`wrap`), which is what the compiled code does
when an `int` overflows; the loop of `Ball::predictedYPosition` is run with fuel, so that a
loop that never exits shows as such.  The other methods are modelled for the executions in
which no arithmetic overflows.  `rand()` is modelled by an explicit stream of draws that is
threaded through the functions calling it.
Rendering, font loading and console output have no effect on the game state and are left out.
-/

namespace PongGame

/-! ## Constants (`pong.cpp` lines 9-19) -/

def SCREEN_WIDTH : Int := 800
def SCREEN_HEIGHT : Int := 600
def PADDLE_WIDTH : Int := 15
def PADDLE_HEIGHT : Int := 90
def PADDLE_SPEED : Int := 5
def BALL_SIZE : Int := 15
def BALL_SPEED : Int := 5

/-- The three AI tiers, `enum class Difficulty`. -/
inductive Difficulty where
  | EASY
  | MEDIUM
  | HARD
  deriving DecidableEq, Repr

/-- The fields of `SDL_Rect`. -/
structure Rect where
  x : Int
  y : Int
  w : Int
  h : Int
  deriving DecidableEq, Repr

/-- The stream of values the successive calls of `rand()` return. -/
def Rand : Type := Nat → Nat

/-- One call of `rand()`: the value drawn and the rest of the stream. -/
def rand (g : Rand) : Nat × Rand := (g 0, fun n => g (n + 1))

/-- The C library function `abs` on `int`. -/
def cabs (v : Int) : Int := if v < 0 then -v else v

/-- The C++ operator `/` on `int`: the quotient truncated toward zero. -/
def cdiv (a b : Int) : Int := Int.tdiv a b

/-- The least value of the 32-bit type `int`. -/
def INT_MIN : Int := -2147483648

/-- The greatest value of the 32-bit type `int`. -/
def INT_MAX : Int := 2147483647

/-- The `int` that 32-bit two's complement arithmetic keeps of the exact result `v`: the
value in `[INT_MIN, INT_MAX]` that differs from `v` by a multiple of `2^32`. -/
def wrap (v : Int) : Int := (v + 2147483648) % 4294967296 - 2147483648

/-! ## Paddle (`pong.cpp` lines 73-96) -/

structure Paddle where
  rect : Rect
  yVel : Int
  deriving DecidableEq, Repr

/-- The constructor `Paddle(int x, int y)`. -/
def Paddle.mk0 (x y : Int) : Paddle :=
  { rect := { x := x, y := y, w := PADDLE_WIDTH, h := PADDLE_HEIGHT }, yVel := 0 }

/-- The method `Paddle::move`, in 32-bit arithmetic. -/
def Paddle.move (p : Paddle) : Paddle :=
  let y1 := wrap (p.rect.y + p.yVel)
  let y2 := if y1 < 0 then 0 else y1
  let y3 := if wrap (y2 + p.rect.h) > SCREEN_HEIGHT then wrap (SCREEN_HEIGHT - p.rect.h) else y2
  { p with rect := { p.rect with y := y3 } }

/-- The method `Paddle::centerY`. -/
def Paddle.centerY (p : Paddle) : Int := p.rect.y + cdiv p.rect.h 2

/-! ## Ball (`pong.cpp` lines 98-150) -/

structure Ball where
  rect : Rect
  xVel : Int
  yVel : Int
  deriving DecidableEq, Repr

/-- The method `Ball::move`: integrate the position, then invert `yVel` at the top and
bottom walls. -/
def Ball.move (b : Ball) : Ball :=
  let x1 := b.rect.x + b.xVel
  let y1 := b.rect.y + b.yVel
  let yVel1 := if y1 ≤ 0 ∨ y1 + b.rect.h ≥ SCREEN_HEIGHT then -b.yVel else b.yVel
  { rect := { b.rect with x := x1, y := y1 }, xVel := b.xVel, yVel := yVel1 }

/-- The method `Ball::resetBall`: recentre the ball and draw the two velocity signs. -/
def Ball.resetBall (b : Ball) (g : Rand) : Ball × Rand :=
  let d1 := rand g
  let d2 := rand d1.2
  ({ rect := { b.rect with x := cdiv SCREEN_WIDTH 2 - cdiv BALL_SIZE 2,
                           y := cdiv SCREEN_HEIGHT 2 - cdiv BALL_SIZE 2 },
     xVel := (if d1.1 % 2 = 0 then 1 else -1) * BALL_SPEED,
     yVel := (if d2.1 % 2 = 0 then 1 else -1) * BALL_SPEED }, d2.2)

/-- The constructor `Ball()`. -/
def Ball.mk0 (g : Rand) : Ball × Rand :=
  Ball.resetBall
    { rect := { x := cdiv SCREEN_WIDTH 2 - cdiv BALL_SIZE 2,
                y := cdiv SCREEN_HEIGHT 2 - cdiv BALL_SIZE 2,
                w := BALL_SIZE, h := BALL_SIZE },
      xVel := 0, yVel := 0 } g

/-- One pass through the body of the `while` loop of `Ball::predictedYPosition`
(lines 140-145), in 32-bit arithmetic: the two `if` statements in sequence. -/
def foldBody (predictedY : Int) : Int :=
  let p1 := if predictedY < 0 then wrap (-predictedY) else predictedY
  if wrap (p1 + BALL_SIZE) > SCREEN_HEIGHT then wrap (2 * (SCREEN_HEIGHT - BALL_SIZE) - p1)
  else p1

/-- The `while` loop of `Ball::predictedYPosition` (lines 139-146), in 32-bit arithmetic:
the value of `predictedY` at the exit of the loop, and `none` when the loop has not exited
within `fuel - 1` passes through its body. -/
def foldWallsFuel : Nat → Int → Option Int
  | 0, _ => none
  | fuel + 1, predictedY =>
    if predictedY < 0 ∨ wrap (predictedY + BALL_SIZE) > SCREEN_HEIGHT then
      foldWallsFuel fuel (foldBody predictedY)
    else some predictedY

/-- Lines 135-136 of `Ball::predictedYPosition`, in 32-bit arithmetic: the prediction
before it is folded. -/
def Ball.predictedY (b : Ball) : Int :=
  let timeToReach := cdiv (wrap (SCREEN_WIDTH - b.rect.x)) (wrap (cabs b.xVel))
  wrap (b.rect.y + wrap (b.yVel * timeToReach))

/-- The method `Ball::predictedYPosition`, its loop run with `fuel`: `none` when the loop
has not exited within `fuel - 1` passes. -/
def Ball.predictedYPositionFuel (fuel : Nat) (b : Ball) : Option Int :=
  if b.xVel = 0 then some (cdiv SCREEN_HEIGHT 2)
  else
    match foldWallsFuel fuel b.predictedY with
    | some predictedY => some (wrap (predictedY + cdiv BALL_SIZE 2))
    | none => none

/-- The value `Ball::predictedYPosition` returns, as `Pong::moveAIPaddle` reads it.  The
fuel `2 * |predictedY| + 2` is enough whenever the loop exits.  The loop does not exit when
the prediction is `INT_MIN`, which `-predictedY` leaves unchanged: the call of the code does
not return then, and the value given here is the prediction plus `BALL_SIZE / 2`. -/
def Ball.predictedYPosition (b : Ball) : Int :=
  (b.predictedYPositionFuel (2 * b.predictedY.natAbs + 2)).getD
    (wrap (b.predictedY + cdiv BALL_SIZE 2))

/-- Modelled from the spec: `SDL_HasIntersection` is a function of the SDL2 library, absent
from `pong.cpp`; the spec calls it the axis-aligned overlap test.  As in SDL2, a rectangle of
non-positive width or height is empty and intersects nothing, and the two rectangles must
overlap on a span of positive length both horizontally and vertically. -/
def SDL_HasIntersection (a b : Rect) : Bool :=
  if a.w ≤ 0 ∨ a.h ≤ 0 ∨ b.w ≤ 0 ∨ b.h ≤ 0 then false
  else if min (a.x + a.w) (b.x + b.w) ≤ max a.x b.x then false
  else if min (a.y + a.h) (b.y + b.h) ≤ max a.y b.y then false
  else true

/-- The key symbols `Pong::handleEvents` distinguishes in a key-down event. -/
inductive Keycode where
  | SDLK_1
  | SDLK_2
  | SDLK_3
  | other
  deriving DecidableEq, Repr

/-- The events `SDL_PollEvent` delivers, as far as `Pong::handleEvents` tells them apart. -/
inductive Event where
  | SDL_QUIT
  | SDL_KEYDOWN (sym : Keycode)
  | other
  deriving DecidableEq, Repr

/-- The four entries of the array of `SDL_GetKeyboardState` that `Pong::handleEvents` reads:
`true` when the key is held down. -/
structure KeyState where
  W : Bool
  S : Bool
  UP : Bool
  DOWN : Bool
  deriving DecidableEq, Repr

/-! ## Pong (`pong.cpp` lines 152-352) -/

/-- The game state: the data members of `class Pong`, without the window, renderer and font
handles. -/
structure Pong where
  running : Bool
  isPlayerTwoAI : Bool
  aiDifficulty : Difficulty
  leftPaddle : Paddle
  rightPaddle : Paddle
  ball : Ball
  leftScore : Int
  rightScore : Int
  deriving DecidableEq, Repr

/-- The method `Pong::moveAIPaddle`. -/
def Pong.moveAIPaddle (s : Pong) (g : Rand) : Pong × Rand :=
  let targetY := s.ball.predictedYPosition
  let paddleCenter := s.rightPaddle.centerY
  match s.aiDifficulty with
  | Difficulty.EASY =>
    let d := rand g
    if d.1 % 10 < 3 then
      ({ s with rightPaddle := { s.rightPaddle with
           yVel := if targetY > paddleCenter then cdiv PADDLE_SPEED 2
                   else cdiv (-PADDLE_SPEED) 2 } }, d.2)
    else
      ({ s with rightPaddle := { s.rightPaddle with yVel := 0 } }, d.2)
  | Difficulty.MEDIUM =>
    if cabs (targetY - paddleCenter) > cdiv PADDLE_HEIGHT 4 then
      ({ s with rightPaddle := { s.rightPaddle with
           yVel := if targetY > paddleCenter then PADDLE_SPEED else -PADDLE_SPEED } }, g)
    else
      ({ s with rightPaddle := { s.rightPaddle with yVel := 0 } }, g)
  | Difficulty.HARD =>
    if cabs (targetY - paddleCenter) > 5 then
      ({ s with rightPaddle := { s.rightPaddle with
           yVel := if targetY > paddleCenter then PADDLE_SPEED else -PADDLE_SPEED } }, g)
    else
      ({ s with rightPaddle := { s.rightPaddle with yVel := 0 } }, g)

/-- The constructor `Pong::Pong`, as far as the game state goes. -/
def Pong.mk0 (playerTwoAI : Bool) (difficulty : Difficulty) (g : Rand) : Pong × Rand :=
  let b := Ball.mk0 g
  ({ running := true, isPlayerTwoAI := playerTwoAI, aiDifficulty := difficulty,
     leftPaddle := Paddle.mk0 50 (cdiv SCREEN_HEIGHT 2 - cdiv PADDLE_HEIGHT 2),
     rightPaddle := Paddle.mk0 (SCREEN_WIDTH - 50 - PADDLE_WIDTH)
                      (cdiv SCREEN_HEIGHT 2 - cdiv PADDLE_HEIGHT 2),
     ball := b.1, leftScore := 0, rightScore := 0 }, b.2)

/-- The body of the event loop of `Pong::handleEvents` (lines 257-277) for one event. -/
def Pong.handleEvent (s : Pong) (e : Event) : Pong :=
  match e with
  | Event.SDL_QUIT => { s with running := false }
  | Event.SDL_KEYDOWN Keycode.SDLK_1 => { s with aiDifficulty := Difficulty.EASY }
  | Event.SDL_KEYDOWN Keycode.SDLK_2 => { s with aiDifficulty := Difficulty.MEDIUM }
  | Event.SDL_KEYDOWN Keycode.SDLK_3 => { s with aiDifficulty := Difficulty.HARD }
  | Event.SDL_KEYDOWN Keycode.other => s
  | Event.other => s

/-- The method `Pong::handleEvents`: `events` are the pending events `SDL_PollEvent` hands
out, in order, and `keystate` is the keyboard state. -/
def Pong.handleEvents (s : Pong) (events : List Event) (keystate : KeyState) (g : Rand) :
    Pong × Rand :=
  let s1 := events.foldl Pong.handleEvent s
  let l1 : Int := 0
  let l2 := if keystate.W then -PADDLE_SPEED else l1
  let l3 := if keystate.S then PADDLE_SPEED else l2
  let s2 := { s1 with leftPaddle := { s1.leftPaddle with yVel := l3 } }
  if s2.isPlayerTwoAI then
    s2.moveAIPaddle g
  else
    let r1 : Int := 0
    let r2 := if keystate.UP then -PADDLE_SPEED else r1
    let r3 := if keystate.DOWN then PADDLE_SPEED else r2
    ({ s2 with rightPaddle := { s2.rightPaddle with yVel := r3 } }, g)

/-- Lines 306-308 of `Pong::update`: both paddles move, then the ball. -/
def Pong.moveAll (s : Pong) : Pong :=
  { s with leftPaddle := s.leftPaddle.move, rightPaddle := s.rightPaddle.move,
           ball := s.ball.move }

/-- Lines 311-341 of `Pong::update`: the collision of the ball with the paddles. -/
def Pong.collide (s : Pong) : Pong :=
  if SDL_HasIntersection s.ball.rect s.leftPaddle.rect ||
      SDL_HasIntersection s.ball.rect s.rightPaddle.rect then
    let hitPaddle := if SDL_HasIntersection s.ball.rect s.leftPaddle.rect
                     then s.leftPaddle.rect else s.rightPaddle.rect
    let xVel1 := -s.ball.xVel
    let paddleCenter := hitPaddle.y + cdiv hitPaddle.h 2
    let ballCenter := s.ball.rect.y + cdiv s.ball.rect.h 2
    let offset := ballCenter - paddleCenter
    let yVel1 := s.ball.yVel + cdiv offset 10
    let x1 := if s.ball.rect.x < cdiv SCREEN_WIDTH 2 then hitPaddle.x + hitPaddle.w
              else hitPaddle.x - s.ball.rect.w
    { s with ball := { rect := { s.ball.rect with x := x1 }, xVel := xVel1, yVel := yVel1 } }
  else s

/-- Lines 344-351 of `Pong::update`: the two scoring tests, one after the other. -/
def Pong.score (s : Pong) (g : Rand) : Pong × Rand :=
  let r1 : Pong × Rand :=
    if s.ball.rect.x ≤ 0 then
      let b := s.ball.resetBall g
      ({ s with rightScore := s.rightScore + 1, ball := b.1 }, b.2)
    else (s, g)
  if r1.1.ball.rect.x + r1.1.ball.rect.w ≥ SCREEN_WIDTH then
    let b := r1.1.ball.resetBall r1.2
    ({ r1.1 with leftScore := r1.1.leftScore + 1, ball := b.1 }, b.2)
  else r1

/-- The method `Pong::update`. -/
def Pong.update (s : Pong) (g : Rand) : Pong × Rand :=
  s.moveAll.collide.score g

/-- One frame of `Pong::run` without the rendering: `handleEvents`, then `update`. -/
def Pong.frame (s : Pong) (events : List Event) (keystate : KeyState) (g : Rand) :
    Pong × Rand :=
  let r := s.handleEvents events keystate g
  r.1.update r.2

/-- The sizes and horizontal positions the constructors give the three rectangles, which no
method changes. -/
def Pong.Sized (s : Pong) : Prop :=
  s.ball.rect.w = BALL_SIZE ∧ s.ball.rect.h = BALL_SIZE ∧
  s.leftPaddle.rect.x = 50 ∧ s.leftPaddle.rect.w = PADDLE_WIDTH ∧
  s.leftPaddle.rect.h = PADDLE_HEIGHT ∧
  s.rightPaddle.rect.x = SCREEN_WIDTH - 50 - PADDLE_WIDTH ∧
  s.rightPaddle.rect.w = PADDLE_WIDTH ∧ s.rightPaddle.rect.h = PADDLE_HEIGHT

instance (s : Pong) : Decidable s.Sized := by
  unfold Pong.Sized; infer_instance

/-- A ball at the centre of the screen, as `resetBall` leaves it when both draws are even. -/
def Ball.centred : Ball :=
  { rect := { x := 393, y := 293, w := BALL_SIZE, h := BALL_SIZE }, xVel := 5, yVel := 5 }

/-- A ball at the centre that moves steeply down: its prediction `1913` is folded twice. -/
def Ball.steep : Ball :=
  { rect := { x := 393, y := 293, w := BALL_SIZE, h := BALL_SIZE }, xVel := 5, yVel := 20 }

/-- A ball whose `rect.y` is the least `int`. -/
def Ball.lowest : Ball :=
  { rect := { x := 393, y := INT_MIN, w := BALL_SIZE, h := BALL_SIZE }, xVel := 1, yVel := 0 }

/-- A ball whose `rect.y` is `7` below the greatest `int`. -/
def Ball.highest : Ball :=
  { rect := { x := 393, y := 2147483640, w := BALL_SIZE, h := BALL_SIZE },
    xVel := 1, yVel := 0 }

/-- A paddle at the greatest `int`, moving down. -/
def Paddle.atMax : Paddle :=
  { Paddle.mk0 50 2147483647 with yVel := 1 }

/-- A paddle at rest whose bottom edge `rect.y + rect.h` exceeds the greatest `int`. -/
def Paddle.nearMax : Paddle := Paddle.mk0 50 2147483637

/-- The stream of draws in which every call of `rand()` returns `0`. -/
def Rand.zeros : Rand := fun _ => 0

/-- A freshly constructed two-player match on the Medium tier. -/
def Pong.fresh : Pong := (Pong.mk0 false Difficulty.MEDIUM Rand.zeros).1

/-- A match without points whose ball is at `x = 0`, `y = 300` with the given velocity. -/
def Pong.atEdge (xVel yVel : Int) : Pong :=
  { Pong.fresh with
    ball := { rect := { x := 0, y := 300, w := BALL_SIZE, h := BALL_SIZE },
              xVel := xVel, yVel := yVel } }

/-- A match against the AI on tier `d`, the ball at the centre (its predicted intercept is
`479`) and the right paddle at height `y`. -/
def Pong.aiAt (d : Difficulty) (y : Int) : Pong :=
  { Pong.fresh with
    isPlayerTwoAI := true, aiDifficulty := d, ball := Ball.centred,
    rightPaddle := Paddle.mk0 (SCREEN_WIDTH - 50 - PADDLE_WIDTH) y }

/-- A match whose ball is at `(x, 315)` with velocity `(xVel, 5)`, the paddles at their
starting height `255`. -/
def Pong.ballAt (x xVel : Int) : Pong :=
  { Pong.fresh with
    ball := { rect := { x := x, y := 315, w := BALL_SIZE, h := BALL_SIZE },
              xVel := xVel, yVel := 5 } }

/-- The keyboard state with none of the four keys held down. -/
def KeyState.none : KeyState := { W := false, S := false, UP := false, DOWN := false }

/-! ## Auxiliary lemmas -/

theorem cabs_eq_abs (v : Int) : cabs v = |v| := by
  unfold cabs
  split_ifs with h
  · exact (abs_of_neg h).symm
  · exact (abs_of_nonneg (not_lt.mp h)).symm

theorem wrap_of_int (v : Int) (h1 : INT_MIN ≤ v) (h2 : v ≤ INT_MAX) : wrap v = v := by
  simp only [wrap, INT_MIN, INT_MAX] at *
  omega

theorem wrap_is_int (v : Int) : INT_MIN ≤ wrap v ∧ wrap v ≤ INT_MAX := by
  simp only [wrap, INT_MIN, INT_MAX]
  omega

/-- Every pass through the loop body taken from an `int` other than `INT_MIN` while the
loop condition holds lowers `2 * |p|`, plus one when `p < 0`, and gives an `int` other
than `INT_MIN`. -/
theorem foldBody_lt (p : Int) (h1 : INT_MIN < p) (h2 : p ≤ INT_MAX)
    (hc : p < 0 ∨ wrap (p + BALL_SIZE) > SCREEN_HEIGHT) :
    2 * (foldBody p).natAbs + (if foldBody p < 0 then 1 else 0) <
      2 * p.natAbs + (if p < 0 then 1 else 0) ∧
    INT_MIN < foldBody p ∧ foldBody p ≤ INT_MAX := by
  simp only [foldBody, wrap, INT_MIN, INT_MAX, BALL_SIZE, SCREEN_HEIGHT] at *
  refine ⟨?_, ?_, ?_⟩ <;> split_ifs <;> omega

/-- The loop of `predictedYPosition` exits from every `int` other than `INT_MIN`, after a
number `k` of passes that is below the fuel given. -/
theorem foldWallsFuel_exits (n : Nat) :
    ∀ p : Int, INT_MIN < p → p ≤ INT_MAX → 2 * p.natAbs + (if p < 0 then 1 else 0) < n →
      ∃ k : Nat, k < n ∧
        (∀ j, j < k →
          (foldBody^[j] p < 0 ∨ wrap (foldBody^[j] p + BALL_SIZE) > SCREEN_HEIGHT)) ∧
        ¬ (foldBody^[k] p < 0 ∨ wrap (foldBody^[k] p + BALL_SIZE) > SCREEN_HEIGHT) ∧
        foldWallsFuel n p = some (foldBody^[k] p) ∧
        (foldBody^[k] p).natAbs ≤ p.natAbs := by
  induction n with
  | zero => intro p _ _ h; omega
  | succ n ih =>
    intro p h1 h2 hm
    by_cases hc : p < 0 ∨ wrap (p + BALL_SIZE) > SCREEN_HEIGHT
    · obtain ⟨m1, m2, m3⟩ := foldBody_lt p h1 h2 hc
      obtain ⟨k, k1, k2, k3, k4, k5⟩ := ih (foldBody p) m2 m3 (by omega)
      refine ⟨k + 1, by omega, ?_, ?_, ?_, ?_⟩
      · intro j hj
        cases j with
        | zero => simpa using hc
        | succ j =>
          rw [Function.iterate_succ_apply]
          exact k2 j (by omega)
      · rw [Function.iterate_succ_apply]
        exact k3
      · rw [Function.iterate_succ_apply, ← k4]
        simp only [foldWallsFuel, if_pos hc]
      · rw [Function.iterate_succ_apply]
        have : (foldBody p).natAbs ≤ p.natAbs := by
          split_ifs at m1 <;> omega
        omega
    · refine ⟨0, by omega, by intro j hj; omega, by simpa using hc, ?_, le_refl _⟩
      simp only [foldWallsFuel, if_neg hc, Function.iterate_zero, id_eq]

/-- When the loop condition holds before each of `k` passes and fails after the last, fuel
`k + 1` gives the value after the `k` passes. -/
theorem foldWallsFuel_of_passes (k : Nat) :
    ∀ p : Int,
      (∀ j, j < k →
        (foldBody^[j] p < 0 ∨ wrap (foldBody^[j] p + BALL_SIZE) > SCREEN_HEIGHT)) →
      ¬ (foldBody^[k] p < 0 ∨ wrap (foldBody^[k] p + BALL_SIZE) > SCREEN_HEIGHT) →
      foldWallsFuel (k + 1) p = some (foldBody^[k] p) := by
  induction k with
  | zero =>
    intro p _ h
    have hc : ¬ (p < 0 ∨ wrap (p + BALL_SIZE) > SCREEN_HEIGHT) := by simpa using h
    simp only [foldWallsFuel, if_neg hc, Function.iterate_zero, id_eq]
  | succ k ih =>
    intro p h1 h2
    have hc : p < 0 ∨ wrap (p + BALL_SIZE) > SCREEN_HEIGHT := by
      simpa using h1 0 (by omega)
    have := ih (foldBody p)
      (fun j hj => by simpa [Function.iterate_succ_apply] using h1 (j + 1) (by omega))
      (by simpa [Function.iterate_succ_apply] using h2)
    rw [Function.iterate_succ_apply, ← this]
    simp only [foldWallsFuel, if_pos hc]

/-- More fuel does not change the value the loop exits with. -/
theorem foldWallsFuel_mono (n : Nat) :
    ∀ (p r : Int) (m : Nat), foldWallsFuel n p = some r → n ≤ m → foldWallsFuel m p = some r := by
  induction n with
  | zero => intro p r m h; simp [foldWallsFuel] at h
  | succ n ih =>
    intro p r m h hm
    obtain ⟨m', rfl⟩ : ∃ m', m = m' + 1 := ⟨m - 1, by omega⟩
    by_cases hc : p < 0 ∨ wrap (p + BALL_SIZE) > SCREEN_HEIGHT
    · simp only [foldWallsFuel, if_pos hc] at h ⊢
      exact ih _ _ _ h (by omega)
    · simp only [foldWallsFuel, if_neg hc] at h ⊢
      exact h

/-- From `INT_MIN` the loop of `predictedYPosition` never exits: `-predictedY` overflows
back to `INT_MIN`. -/
theorem foldWallsFuel_INT_MIN (n : Nat) : foldWallsFuel n INT_MIN = none := by
  induction n with
  | zero => rfl
  | succ n ih =>
    have hc : INT_MIN < 0 ∨ wrap (INT_MIN + BALL_SIZE) > SCREEN_HEIGHT := Or.inl (by decide)
    have hb : foldBody INT_MIN = INT_MIN := by decide
    simp only [foldWallsFuel, if_pos hc, hb, ih]

/-- Whenever the call of `Ball::predictedYPosition` returns, with whatever fuel, the value
it returns is the one `Ball.predictedYPosition` gives. -/
theorem Ball.predictedYPosition_of_fuel (b : Ball) (n : Nat) (r : Int)
    (h : b.predictedYPositionFuel n = some r) : b.predictedYPosition = r := by
  by_cases hx : b.xVel = 0
  · simp only [Ball.predictedYPositionFuel, if_pos hx] at h
    simp only [Ball.predictedYPosition, Ball.predictedYPositionFuel, if_pos hx,
      Option.getD_some]
    exact Option.some.inj h
  · simp only [Ball.predictedYPositionFuel, if_neg hx] at h
    cases hq : foldWallsFuel n b.predictedY with
    | none => rw [hq] at h; cases h
    | some q =>
      rw [hq] at h
      obtain ⟨i1, i2⟩ := wrap_is_int
        (b.rect.y + wrap (b.yVel * cdiv (wrap (SCREEN_WIDTH - b.rect.x)) (wrap (cabs b.xVel))))
      have i1' : INT_MIN ≤ b.predictedY := i1
      have i2' : b.predictedY ≤ INT_MAX := i2
      have hne : b.predictedY ≠ INT_MIN := by
        intro e
        rw [e, foldWallsFuel_INT_MIN] at hq
        cases hq
      obtain ⟨k, _, _, _, k4, _⟩ :=
        foldWallsFuel_exits (2 * b.predictedY.natAbs + 2) b.predictedY
          (lt_of_le_of_ne i1' (Ne.symm hne)) i2' (by split_ifs <;> omega)
      have e1 := foldWallsFuel_mono _ _ _ (max n (2 * b.predictedY.natAbs + 2)) hq
        (le_max_left _ _)
      have e2 := foldWallsFuel_mono _ _ _ (max n (2 * b.predictedY.natAbs + 2)) k4
        (le_max_right _ _)
      have e3 : foldBody^[k] b.predictedY = q := Option.some.inj (e2.symm.trans e1)
      simp only [Ball.predictedYPosition, Ball.predictedYPositionFuel, if_neg hx, k4, e3,
        Option.getD_some]
      exact Option.some.inj h

theorem Ball.resetBall_rect (b : Ball) (g : Rand) :
    (b.resetBall g).1.rect = { b.rect with x := 393, y := 293 } := by
  have h1 : cdiv SCREEN_WIDTH 2 - cdiv BALL_SIZE 2 = 393 := by decide
  have h2 : cdiv SCREEN_HEIGHT 2 - cdiv BALL_SIZE 2 = 293 := by decide
  simp only [Ball.resetBall, h1, h2]

theorem Ball.resetBall_vel (b : Ball) (g : Rand) :
    ((b.resetBall g).1.xVel = BALL_SPEED ∨ (b.resetBall g).1.xVel = -BALL_SPEED) ∧
    ((b.resetBall g).1.yVel = BALL_SPEED ∨ (b.resetBall g).1.yVel = -BALL_SPEED) := by
  simp only [Ball.resetBall, BALL_SPEED]
  constructor <;> split_ifs <;> simp

theorem Pong.collide_scores (s : Pong) :
    s.collide.leftScore = s.leftScore ∧ s.collide.rightScore = s.rightScore := by
  unfold Pong.collide
  split_ifs <;> exact ⟨rfl, rfl⟩

theorem Pong.collide_paddles (s : Pong) :
    s.collide.leftPaddle = s.leftPaddle ∧ s.collide.rightPaddle = s.rightPaddle := by
  unfold Pong.collide
  split_ifs <;> exact ⟨rfl, rfl⟩

theorem Pong.collide_ball_size (s : Pong) :
    s.collide.ball.rect.w = s.ball.rect.w ∧ s.collide.ball.rect.h = s.ball.rect.h ∧
    s.collide.ball.rect.y = s.ball.rect.y := by
  unfold Pong.collide
  split_ifs <;> exact ⟨rfl, rfl, rfl⟩

/-- What `resetBall` makes of the ball that the movement and the collision step leave. -/
theorem Pong.reset_after_collide (s : Pong) (g : Rand) :
    (s.moveAll.collide.ball.resetBall g).1.rect = { s.ball.rect with x := 393, y := 293 } ∧
    (s.moveAll.collide.ball.resetBall g).1.xVel =
      (if (rand g).1 % 2 = 0 then BALL_SPEED else -BALL_SPEED) ∧
    (s.moveAll.collide.ball.resetBall g).1.yVel =
      (if (rand (rand g).2).1 % 2 = 0 then BALL_SPEED else -BALL_SPEED) := by
  obtain ⟨h1, h2, _⟩ := Pong.collide_ball_size s.moveAll
  have h1' : s.moveAll.collide.ball.rect.w = s.ball.rect.w := h1
  have h2' : s.moveAll.collide.ball.rect.h = s.ball.rect.h := h2
  refine ⟨?_, ?_, ?_⟩
  · rw [Ball.resetBall_rect]
    show Rect.mk 393 293 _ _ = Rect.mk 393 293 _ _
    rw [h1', h2']
  · simp only [Ball.resetBall]
    split_ifs <;> simp
  · simp only [Ball.resetBall]
    split_ifs <;> simp

/-- The three cases of the scoring step for a ball of width `BALL_SIZE`. -/
theorem Pong.score_cases (m : Pong) (g : Rand) (hw : m.ball.rect.w = BALL_SIZE) :
    (m.ball.rect.x ≤ 0 →
      (m.score g).1 =
        { m with rightScore := m.rightScore + 1, ball := (m.ball.resetBall g).1 }) ∧
    (0 < m.ball.rect.x → SCREEN_WIDTH ≤ m.ball.rect.x + BALL_SIZE →
      (m.score g).1 =
        { m with leftScore := m.leftScore + 1, ball := (m.ball.resetBall g).1 }) ∧
    (0 < m.ball.rect.x → m.ball.rect.x + BALL_SIZE < SCREEN_WIDTH → m.score g = (m, g)) := by
  refine ⟨?_, ?_, ?_⟩
  · intro hx
    have hr := Ball.resetBall_rect m.ball g
    simp only [Pong.score, if_pos hx, hr, hw, BALL_SIZE, SCREEN_WIDTH]
    rw [if_neg (by omega)]
  · intro hx hx2
    have hx1 : ¬ m.ball.rect.x ≤ 0 := by omega
    simp only [Pong.score, if_neg hx1, hw]
    rw [if_pos (by simpa using hx2)]
  · intro hx hx2
    have hx1 : ¬ m.ball.rect.x ≤ 0 := by omega
    simp only [Pong.score, if_neg hx1, hw]
    rw [if_neg (by simpa using hx2)]

/-- Two rectangles that are side by side do not intersect. -/
theorem SDL_HasIntersection_apart (a b : Rect) (h : a.x + a.w ≤ b.x ∨ b.x + b.w ≤ a.x) :
    SDL_HasIntersection a b = false := by
  unfold SDL_HasIntersection
  split_ifs with h1 h2 h3
  · rfl
  · rfl
  · rfl
  · exfalso
    simp only [not_or, not_le] at h1
    omega

/-- What an intersection means for two rectangles of positive size. -/
theorem SDL_HasIntersection_iff (a b : Rect) (ha : 0 < a.w ∧ 0 < a.h) (hb : 0 < b.w ∧ 0 < b.h) :
    SDL_HasIntersection a b = true ↔
      (a.x < b.x + b.w ∧ b.x < a.x + a.w) ∧ (a.y < b.y + b.h ∧ b.y < a.y + a.h) := by
  unfold SDL_HasIntersection
  split_ifs with h1 h2 h3
  · omega
  · simp only [Bool.false_eq_true, false_iff]; omega
  · simp only [Bool.false_eq_true, false_iff]; omega
  · simp only [true_iff]; omega

/-- The intercept predicted for the ball at the centre moving right and down. -/
theorem Ball.centred_predicted : Ball.centred.predictedYPosition = 479 := by
  decide

theorem Pong.aiAt_target (d : Difficulty) (y : Int) :
    (Pong.aiAt d y).ball.predictedYPosition = 479 ∧
    (Pong.aiAt d y).rightPaddle.centerY = y + 45 :=
  ⟨Ball.centred_predicted, rfl⟩

/-- The velocity `moveAIPaddle` assigns on the Easy tier. -/
theorem Pong.moveAIPaddle_easy (s : Pong) (g : Rand) (hd : s.aiDifficulty = Difficulty.EASY) :
    (s.moveAIPaddle g).1.rightPaddle.yVel =
      if (rand g).1 % 10 < 3 then
        (if s.ball.predictedYPosition > s.rightPaddle.centerY then 2 else -2)
      else 0 := by
  have h2 : cdiv PADDLE_SPEED 2 = 2 := by decide
  have h3 : cdiv (-PADDLE_SPEED) 2 = -2 := by decide
  simp only [Pong.moveAIPaddle, hd, h2, h3]
  split_ifs <;> rfl

/-- The velocity `moveAIPaddle` assigns on the Medium tier. -/
theorem Pong.moveAIPaddle_medium (s : Pong) (g : Rand)
    (hd : s.aiDifficulty = Difficulty.MEDIUM) :
    (s.moveAIPaddle g).1.rightPaddle.yVel =
      if cabs (s.ball.predictedYPosition - s.rightPaddle.centerY) > 22 then
        (if s.ball.predictedYPosition > s.rightPaddle.centerY then 5 else -5)
      else 0 := by
  have h2 : cdiv PADDLE_HEIGHT 4 = 22 := by decide
  simp only [Pong.moveAIPaddle, hd, h2, PADDLE_SPEED]
  split_ifs <;> rfl

/-- The velocity `moveAIPaddle` assigns on the Hard tier. -/
theorem Pong.moveAIPaddle_hard (s : Pong) (g : Rand) (hd : s.aiDifficulty = Difficulty.HARD) :
    (s.moveAIPaddle g).1.rightPaddle.yVel =
      if cabs (s.ball.predictedYPosition - s.rightPaddle.centerY) > 5 then
        (if s.ball.predictedYPosition > s.rightPaddle.centerY then 5 else -5)
      else 0 := by
  simp only [Pong.moveAIPaddle, hd, PADDLE_SPEED]
  split_ifs <;> rfl

theorem Pong.score_paddles (m : Pong) (g : Rand) :
    (m.score g).1.leftPaddle = m.leftPaddle ∧ (m.score g).1.rightPaddle = m.rightPaddle := by
  by_cases h1 : m.ball.rect.x ≤ 0
  · by_cases h2 : (m.ball.resetBall g).1.rect.x + (m.ball.resetBall g).1.rect.w ≥ SCREEN_WIDTH
    · simp only [Pong.score, if_pos h1, if_pos h2, and_self]
    · simp only [Pong.score, if_pos h1, if_neg h2, and_self]
  · by_cases h2 : m.ball.rect.x + m.ball.rect.w ≥ SCREEN_WIDTH
    · simp only [Pong.score, if_neg h1, if_pos h2, and_self]
    · simp only [Pong.score, if_neg h1, if_neg h2, and_self]

theorem Pong.update_paddles (s : Pong) (g : Rand) :
    (s.update g).1.leftPaddle = s.leftPaddle.move ∧
    (s.update g).1.rightPaddle = s.rightPaddle.move := by
  obtain ⟨h1, h2⟩ := Pong.score_paddles s.moveAll.collide g
  obtain ⟨h3, h4⟩ := Pong.collide_paddles s.moveAll
  exact ⟨h1.trans h3, h2.trans h4⟩

theorem Pong.handleEvent_keeps (s : Pong) (e : Event) :
    (s.handleEvent e).leftPaddle = s.leftPaddle ∧
    (s.handleEvent e).rightPaddle = s.rightPaddle ∧
    (s.handleEvent e).isPlayerTwoAI = s.isPlayerTwoAI := by
  unfold Pong.handleEvent
  split <;> exact ⟨rfl, rfl, rfl⟩

theorem Pong.handleEvent_foldl_keeps (events : List Event) :
    ∀ s : Pong, (events.foldl Pong.handleEvent s).leftPaddle = s.leftPaddle ∧
      (events.foldl Pong.handleEvent s).rightPaddle = s.rightPaddle ∧
      (events.foldl Pong.handleEvent s).isPlayerTwoAI = s.isPlayerTwoAI := by
  induction events with
  | nil => intro s; exact ⟨rfl, rfl, rfl⟩
  | cons e es ih =>
    intro s
    obtain ⟨a1, a2, a3⟩ := ih (s.handleEvent e)
    obtain ⟨b1, b2, b3⟩ := Pong.handleEvent_keeps s e
    exact ⟨a1.trans b1, a2.trans b2, a3.trans b3⟩

/-- A paddle at rest inside the screen is left where it is by `Paddle::move`. -/
theorem Paddle.move_rest (p : Paddle) (hv : p.yVel = 0) (hh : p.rect.h = PADDLE_HEIGHT)
    (h0 : 0 ≤ p.rect.y) (h1 : p.rect.y ≤ SCREEN_HEIGHT - PADDLE_HEIGHT) : p.move = p := by
  have e : p.move.rect.y = p.rect.y := by
    simp only [Paddle.move, hv, hh, wrap, PADDLE_HEIGHT, SCREEN_HEIGHT] at *
    split_ifs <;> omega
  cases p with
  | mk rect yVel =>
    cases rect with
    | mk x y w h =>
      have e' : (Paddle.move ⟨⟨x, y, w, h⟩, yVel⟩).rect.y = y := e
      show (⟨⟨x, (Paddle.move ⟨⟨x, y, w, h⟩, yVel⟩).rect.y, w, h⟩, yVel⟩ : Paddle) = _
      rw [e']

/-- The state after the collision step when the ball intersects the left paddle. -/
theorem Pong.collide_left (m : Pong)
    (h : SDL_HasIntersection m.ball.rect m.leftPaddle.rect = true) :
    m.collide.ball =
      { rect := { m.ball.rect with
                  x := if m.ball.rect.x < cdiv SCREEN_WIDTH 2
                       then m.leftPaddle.rect.x + m.leftPaddle.rect.w
                       else m.leftPaddle.rect.x - m.ball.rect.w },
        xVel := -m.ball.xVel,
        yVel := m.ball.yVel +
          cdiv (m.ball.rect.y + cdiv m.ball.rect.h 2 -
                (m.leftPaddle.rect.y + cdiv m.leftPaddle.rect.h 2)) 10 } := by
  simp only [Pong.collide, h, Bool.true_or, if_true]

/-- The state after the collision step when the ball intersects the right paddle only. -/
theorem Pong.collide_right (m : Pong)
    (hl : SDL_HasIntersection m.ball.rect m.leftPaddle.rect = false)
    (h : SDL_HasIntersection m.ball.rect m.rightPaddle.rect = true) :
    m.collide.ball =
      { rect := { m.ball.rect with
                  x := if m.ball.rect.x < cdiv SCREEN_WIDTH 2
                       then m.rightPaddle.rect.x + m.rightPaddle.rect.w
                       else m.rightPaddle.rect.x - m.ball.rect.w },
        xVel := -m.ball.xVel,
        yVel := m.ball.yVel +
          cdiv (m.ball.rect.y + cdiv m.ball.rect.h 2 -
                (m.rightPaddle.rect.y + cdiv m.rightPaddle.rect.h 2)) 10 } := by
  simp only [Pong.collide, hl, h, Bool.false_or, if_true, Bool.false_eq_true, if_false]

/-! ## The claims -/

/-- C1, as the claim states it, fails where an `int` overflows.  A paddle at
`rect.y = 2147483647` with `yVel = 1` ends at `rect.y = 0` although `rect.y + yVel` clamped
is `510`: the sum on line 86 wraps to `INT_MIN`.  A paddle at rest at `rect.y = 2147483637`
stays there, outside `[0, 510]`: `rect.y + rect.h` on line 91 wraps below zero and the clamp
is skipped. -/
theorem Paddle.move_overflow_counterexample :
    Paddle.atMax.rect.h = PADDLE_HEIGHT ∧ Paddle.atMax.rect.y = 2147483647 ∧
    Paddle.atMax.yVel = 1 ∧ Paddle.atMax.move.rect.y = 0 ∧
    max 0 (min (Paddle.atMax.rect.y + Paddle.atMax.yVel) (SCREEN_HEIGHT - PADDLE_HEIGHT))
      = 510 ∧
    Paddle.nearMax.rect.h = PADDLE_HEIGHT ∧ Paddle.nearMax.rect.y = 2147483637 ∧
    Paddle.nearMax.yVel = 0 ∧ Paddle.nearMax.move.rect.y = 2147483637 ∧
    ¬ Paddle.nearMax.move.rect.y ≤ 510 := by
  decide

/-- C1, amended: for every paddle of height `PADDLE_HEIGHT` whose `rect.y + yVel` is
computed without overflow and leaves room for the height,
`INT_MIN ≤ rect.y + yVel ≤ INT_MAX - PADDLE_HEIGHT`, `Paddle::move` leaves `rect.y` equal
to `rect.y + yVel` clamped into `[0, SCREEN_HEIGHT - PADDLE_HEIGHT]`, so that
`0 ≤ rect.y ≤ 510` holds after the move. -/
theorem Paddle.move_clamps (p : Paddle) (hh : p.rect.h = PADDLE_HEIGHT)
    (h1 : INT_MIN ≤ p.rect.y + p.yVel) (h2 : p.rect.y + p.yVel ≤ INT_MAX - PADDLE_HEIGHT) :
    p.move.rect.y = max 0 (min (p.rect.y + p.yVel) (SCREEN_HEIGHT - PADDLE_HEIGHT)) ∧
    0 ≤ p.move.rect.y ∧ p.move.rect.y ≤ 510 := by
  simp only [Paddle.move, hh, wrap, INT_MIN, INT_MAX, PADDLE_HEIGHT, SCREEN_HEIGHT] at *
  refine ⟨?_, ?_, ?_⟩ <;> split_ifs <;> omega

theorem Paddle.move_clamps_witness :
    (Paddle.mk0 50 508).rect.h = PADDLE_HEIGHT ∧
    INT_MIN ≤ (Paddle.mk0 50 508).rect.y + 5 ∧
    (Paddle.mk0 50 508).rect.y + 5 ≤ INT_MAX - PADDLE_HEIGHT ∧
    ({ Paddle.mk0 50 508 with yVel := 5 } : Paddle).move.rect.y = 510 :=
  ⟨rfl, by decide, by decide,
    (Paddle.move_clamps { Paddle.mk0 50 508 with yVel := 5 } rfl (by decide)
      (by decide)).1.trans (by decide)⟩

/-- C3, as the claim states it, fails where an `int` overflows.  For the ball with
`rect.y = INT_MIN`, `xVel = 1`, `yVel = 0` the prediction is `INT_MIN`, which
`-predictedY` on line 141 leaves unchanged, so the loop never exits: the call returns
nothing, whatever the fuel.  For the ball with `rect.y = 2147483640`, `xVel = 1`,
`yVel = 0` the sum `predictedY + BALL_SIZE` of the loop test wraps below zero, the loop is
skipped and the call returns `2147483647`, outside `[7, 593]`. -/
theorem Ball.predictedYPosition_overflow_counterexample :
    Ball.lowest.predictedY = INT_MIN ∧
    (∀ n : Nat, Ball.lowest.predictedYPositionFuel n = none) ∧
    Ball.highest.predictedYPositionFuel 1 = some 2147483647 ∧
    Ball.highest.predictedYPosition = 2147483647 ∧
    ¬ Ball.highest.predictedYPosition ≤ 593 := by
  refine ⟨by decide, ?_, by decide, by decide, by decide⟩
  intro n
  have hp : Ball.lowest.predictedY = INT_MIN := by decide
  have hx : ¬ Ball.lowest.xVel = 0 := by decide
  simp only [Ball.predictedYPositionFuel, if_neg hx, hp, foldWallsFuel_INT_MIN]

/-- C3, amended: for every ball state with `xVel = 0`, `Ball::predictedYPosition` returns
exactly `SCREEN_HEIGHT/2 = 300`.  For every ball state with `xVel ≠ 0` whose prediction
`predictedY`, as line 136 computes it in 32 bits, satisfies
`|predictedY| ≤ INT_MAX - BALL_SIZE`, the `while` loop stops after a finite number `k` of
passes through its body and the value returned, the folded prediction plus `BALL_SIZE/2`,
lies in `[BALL_SIZE/2, SCREEN_HEIGHT - BALL_SIZE/2] = [7, 593]`. -/
theorem Ball.predictedYPosition_range (b : Ball) :
    (b.xVel = 0 →
      (∀ n : Nat, b.predictedYPositionFuel n = some 300) ∧ b.predictedYPosition = 300) ∧
    (b.xVel ≠ 0 → -(INT_MAX - BALL_SIZE) ≤ b.predictedY →
      b.predictedY ≤ INT_MAX - BALL_SIZE →
      ∃ (k : Nat) (r : Int),
        (∀ j, j < k → (foldBody^[j] b.predictedY < 0 ∨
          wrap (foldBody^[j] b.predictedY + BALL_SIZE) > SCREEN_HEIGHT)) ∧
        ¬ (foldBody^[k] b.predictedY < 0 ∨
          wrap (foldBody^[k] b.predictedY + BALL_SIZE) > SCREEN_HEIGHT) ∧
        r = foldBody^[k] b.predictedY + cdiv BALL_SIZE 2 ∧
        (∀ n : Nat, k < n → b.predictedYPositionFuel n = some r) ∧
        b.predictedYPosition = r ∧
        cdiv BALL_SIZE 2 ≤ r ∧ r ≤ SCREEN_HEIGHT - cdiv BALL_SIZE 2 ∧
        7 ≤ r ∧ r ≤ 593) := by
  have h7 : cdiv BALL_SIZE 2 = 7 := by decide
  have h300 : cdiv SCREEN_HEIGHT 2 = 300 := by decide
  constructor
  · intro hx
    have hf : ∀ n : Nat, b.predictedYPositionFuel n = some 300 := by
      intro n
      simp only [Ball.predictedYPositionFuel, if_pos hx, h300]
    refine ⟨hf, ?_⟩
    simp only [Ball.predictedYPosition, hf, Option.getD_some]
  · intro hx hlo hhi
    have i1 : INT_MIN < b.predictedY := by
      simp only [INT_MIN, INT_MAX, BALL_SIZE] at *; omega
    have i2 : b.predictedY ≤ INT_MAX := by
      simp only [INT_MAX, BALL_SIZE] at *; omega
    obtain ⟨k, k1, k2, k3, k4, k5⟩ :=
      foldWallsFuel_exits (2 * b.predictedY.natAbs + 2) b.predictedY i1 i2
        (by split_ifs <;> omega)
    have hr0 : 0 ≤ foldBody^[k] b.predictedY ∧ foldBody^[k] b.predictedY ≤ 585 := by
      generalize foldBody^[k] b.predictedY = q at k3 k5
      simp only [wrap, INT_MAX, BALL_SIZE, SCREEN_HEIGHT] at *
      omega
    have hw : wrap (foldBody^[k] b.predictedY + 7) = foldBody^[k] b.predictedY + 7 :=
      wrap_of_int _ (by simp only [INT_MIN]; omega) (by simp only [INT_MAX]; omega)
    have hfuel : ∀ n : Nat, k < n →
        b.predictedYPositionFuel n = some (foldBody^[k] b.predictedY + 7) := by
      intro n hn
      have hk : foldWallsFuel (k + 1) b.predictedY = some (foldBody^[k] b.predictedY) :=
        foldWallsFuel_of_passes k b.predictedY k2 k3
      have := foldWallsFuel_mono _ _ _ n hk (by omega)
      simp only [Ball.predictedYPositionFuel, if_neg hx, this, h7, hw]
    refine ⟨k, foldBody^[k] b.predictedY + 7, k2, k3, by rw [h7], hfuel, ?_, ?_, ?_, ?_, ?_⟩
    · have := hfuel (2 * b.predictedY.natAbs + 2) k1
      simp only [Ball.predictedYPosition, this, Option.getD_some]
    · rw [h7]; omega
    · rw [h7]; simp only [SCREEN_HEIGHT]; omega
    · omega
    · omega

theorem Ball.predictedYPosition_range_witness :
    Ball.steep.xVel ≠ 0 ∧ Ball.steep.predictedY = 1913 ∧
    foldBody 1913 = -743 ∧ foldBody (-743) = 427 ∧
    Ball.steep.predictedYPositionFuel 2 = none ∧
    Ball.steep.predictedYPositionFuel 3 = some 434 ∧
    Ball.steep.predictedYPosition = 434 ∧
    ∃ (k : Nat) (r : Int),
      (∀ n : Nat, k < n → Ball.steep.predictedYPositionFuel n = some r) ∧
      Ball.steep.predictedYPosition = r ∧ 7 ≤ r ∧ r ≤ 593 :=
  ⟨by decide, by decide, by decide, by decide, by decide, by decide, by decide,
    let ⟨k, r, _, _, _, hf, hp, _, _, h7, h593⟩ :=
      (Ball.predictedYPosition_range Ball.steep).2 (by decide) (by decide) (by decide)
    ⟨k, r, hf, hp, h7, h593⟩⟩

/-- C2: for every match state (ball of width `BALL_SIZE`) and every stream of random draws,
`Pong::update` changes the scores in exactly one of three ways, decided by the ball's `x`
after the movement and the collision resolution: if `x ≤ 0`, `rightScore` grows by one,
`leftScore` is unchanged and the ball is reset; otherwise if `x + BALL_SIZE ≥ SCREEN_WIDTH`,
`leftScore` grows by one, `rightScore` is unchanged and the ball is reset; otherwise both
scores are unchanged and the ball is not reset.  A reset ball is at the screen centre
`(393, 293)` with its size unchanged, and its `xVel` and `yVel` are `BALL_SPEED` or
`-BALL_SPEED` as the next two draws are even or odd.  The two scores never both change and
neither decreases. -/
theorem Pong.update_scores (s : Pong) (g : Rand) (hw : s.ball.rect.w = BALL_SIZE) :
    (s.moveAll.collide.ball.rect.x ≤ 0 →
      (s.update g).1.rightScore = s.rightScore + 1 ∧
      (s.update g).1.leftScore = s.leftScore ∧
      (s.update g).1.ball = (s.moveAll.collide.ball.resetBall g).1 ∧
      (s.update g).1.ball.rect = { s.ball.rect with x := 393, y := 293 } ∧
      (s.update g).1.ball.xVel = (if (rand g).1 % 2 = 0 then BALL_SPEED else -BALL_SPEED) ∧
      (s.update g).1.ball.yVel =
        (if (rand (rand g).2).1 % 2 = 0 then BALL_SPEED else -BALL_SPEED)) ∧
    (0 < s.moveAll.collide.ball.rect.x →
      s.moveAll.collide.ball.rect.x + BALL_SIZE ≥ SCREEN_WIDTH →
      (s.update g).1.leftScore = s.leftScore + 1 ∧
      (s.update g).1.rightScore = s.rightScore ∧
      (s.update g).1.ball = (s.moveAll.collide.ball.resetBall g).1 ∧
      (s.update g).1.ball.rect = { s.ball.rect with x := 393, y := 293 } ∧
      (s.update g).1.ball.xVel = (if (rand g).1 % 2 = 0 then BALL_SPEED else -BALL_SPEED) ∧
      (s.update g).1.ball.yVel =
        (if (rand (rand g).2).1 % 2 = 0 then BALL_SPEED else -BALL_SPEED)) ∧
    (0 < s.moveAll.collide.ball.rect.x →
      s.moveAll.collide.ball.rect.x + BALL_SIZE < SCREEN_WIDTH →
      (s.update g).1.leftScore = s.leftScore ∧
      (s.update g).1.rightScore = s.rightScore ∧
      (s.update g).1.ball = s.moveAll.collide.ball) ∧
    ((s.update g).1.leftScore = s.leftScore ∨ (s.update g).1.rightScore = s.rightScore) ∧
    s.leftScore ≤ (s.update g).1.leftScore ∧ s.rightScore ≤ (s.update g).1.rightScore := by
  have hmw : s.moveAll.collide.ball.rect.w = BALL_SIZE :=
    (Pong.collide_ball_size s.moveAll).1.trans hw
  have hl : s.moveAll.collide.leftScore = s.leftScore := (Pong.collide_scores s.moveAll).1
  have hr : s.moveAll.collide.rightScore = s.rightScore := (Pong.collide_scores s.moveAll).2
  obtain ⟨r1, r2, r3⟩ := Pong.reset_after_collide s g
  obtain ⟨c1, c2, c3⟩ := Pong.score_cases s.moveAll.collide g hmw
  have k1 : s.moveAll.collide.ball.rect.x ≤ 0 →
      (s.update g).1.rightScore = s.rightScore + 1 ∧
      (s.update g).1.leftScore = s.leftScore ∧
      (s.update g).1.ball = (s.moveAll.collide.ball.resetBall g).1 := by
    intro hx
    have e : (s.update g).1 = _ := c1 hx
    rw [e]
    exact ⟨by rw [← hr], hl, rfl⟩
  have k2 : 0 < s.moveAll.collide.ball.rect.x →
      s.moveAll.collide.ball.rect.x + BALL_SIZE ≥ SCREEN_WIDTH →
      (s.update g).1.leftScore = s.leftScore + 1 ∧
      (s.update g).1.rightScore = s.rightScore ∧
      (s.update g).1.ball = (s.moveAll.collide.ball.resetBall g).1 := by
    intro hx hx2
    have e : (s.update g).1 = _ := c2 hx hx2
    rw [e]
    exact ⟨by rw [← hl], hr, rfl⟩
  have k3 : 0 < s.moveAll.collide.ball.rect.x →
      s.moveAll.collide.ball.rect.x + BALL_SIZE < SCREEN_WIDTH →
      (s.update g).1.leftScore = s.leftScore ∧
      (s.update g).1.rightScore = s.rightScore ∧
      (s.update g).1.ball = s.moveAll.collide.ball := by
    intro hx hx2
    have e : s.update g = _ := c3 hx hx2
    rw [e]
    exact ⟨hl, hr, rfl⟩
  refine ⟨?_, ?_, k3, ?_⟩
  · intro hx
    obtain ⟨a, b, c⟩ := k1 hx
    exact ⟨a, b, c, by rw [c, r1], by rw [c, r2], by rw [c, r3]⟩
  · intro hx hx2
    obtain ⟨a, b, c⟩ := k2 hx hx2
    exact ⟨a, b, c, by rw [c, r1], by rw [c, r2], by rw [c, r3]⟩
  by_cases hx : s.moveAll.collide.ball.rect.x ≤ 0
  · obtain ⟨a, b, _⟩ := k1 hx
    exact ⟨Or.inl b, by omega, by omega⟩
  · by_cases hx2 : s.moveAll.collide.ball.rect.x + BALL_SIZE < SCREEN_WIDTH
    · obtain ⟨a, b, _⟩ := k3 (by omega) hx2
      exact ⟨Or.inl a, by omega, by omega⟩
    · obtain ⟨a, b, _⟩ := k2 (by omega) (by omega)
      exact ⟨Or.inr b, by omega, by omega⟩

theorem Pong.update_scores_witness :
    (Pong.atEdge (-5) 5).ball.rect.w = BALL_SIZE ∧
    (Pong.atEdge (-5) 5).moveAll.collide.ball.rect.x = -5 ∧
    (Pong.atEdge (-5) 5).moveAll.collide.ball.rect.y = 305 ∧
    ((Pong.atEdge (-5) 5).update Rand.zeros).1.rightScore = 1 ∧
    ((Pong.atEdge (-5) 5).update Rand.zeros).1.ball.rect =
      { x := 393, y := 293, w := 15, h := 15 } ∧
    ((Pong.atEdge (-5) 5).update Rand.zeros).1.ball.xVel = 5 ∧
    ((Pong.atEdge (-5) 5).update Rand.zeros).1.ball.rect =
      { (Pong.atEdge (-5) 5).ball.rect with x := 393, y := 293 } :=
  ⟨rfl, by decide, by decide, by decide, by decide, by decide,
    ((Pong.update_scores (Pong.atEdge (-5) 5) Rand.zeros rfl).1 (by decide)).2.2.2.1⟩

/-- C4, as the claim states it, fails when the ball moves right: from `rect.x = 0`,
`rect.y = 300` with `xVel = yVel = BALL_SPEED` and no points scored, `Pong::update` first
moves the ball to `rect.x = 5`, so nobody scores and `rightScore` is still `0`. -/
theorem Pong.update_atEdge_counterexample :
    (Pong.atEdge 5 5).Sized ∧
    (Pong.atEdge 5 5).leftScore = 0 ∧ (Pong.atEdge 5 5).rightScore = 0 ∧
    (Pong.atEdge 5 5).ball.rect.x = 0 ∧ (Pong.atEdge 5 5).ball.rect.y = 300 ∧
    (Pong.atEdge 5 5).ball.xVel = BALL_SPEED ∧ (Pong.atEdge 5 5).ball.yVel = BALL_SPEED ∧
    ((Pong.atEdge 5 5).update Rand.zeros).1.rightScore = 0 ∧
    ((Pong.atEdge 5 5).update Rand.zeros).1.ball.rect.x = 5 ∧
    ((Pong.atEdge 5 5).update Rand.zeros).1.ball.rect.y = 305 ∧
    ¬ ((Pong.atEdge 5 5).update Rand.zeros).1.rightScore = 1 := by
  decide

/-- C4, amended: for every match with `leftScore = rightScore = 0` whose ball is at
`rect.x = 0` and moves left, `xVel = -BALL_SPEED` (at any height and with any `yVel`, thus
at `rect.y = 300` with `yVel = ±BALL_SPEED`), with any paddles at their constructed `x`
and any random outcome, one `Pong::update` yields `rightScore = 1`, `leftScore = 0` and
the ball at the screen centre `(393, 293)` with `|xVel| = |yVel| = BALL_SPEED`. -/
theorem Pong.update_left_edge_scores (s : Pong) (g : Rand) (hs : s.Sized)
    (hl : s.leftScore = 0) (hr : s.rightScore = 0) (hx : s.ball.rect.x = 0)
    (hvx : s.ball.xVel = -BALL_SPEED) :
    (s.update g).1.rightScore = 1 ∧ (s.update g).1.leftScore = 0 ∧
    (s.update g).1.ball.rect.x = cdiv SCREEN_WIDTH 2 - cdiv BALL_SIZE 2 ∧
    (s.update g).1.ball.rect.y = cdiv SCREEN_HEIGHT 2 - cdiv BALL_SIZE 2 ∧
    (s.update g).1.ball.rect.x = 393 ∧ (s.update g).1.ball.rect.y = 293 ∧
    |(s.update g).1.ball.xVel| = BALL_SPEED ∧ |(s.update g).1.ball.yVel| = BALL_SPEED := by
  obtain ⟨bw, bh, lx, lw, lh, rx, rw, rh⟩ := hs
  have hmx : s.moveAll.ball.rect.x = -5 := by
    show s.ball.rect.x + s.ball.xVel = -5
    rw [hx, hvx]; decide
  have hmw : s.moveAll.ball.rect.w = 15 := bw
  have h1 : SDL_HasIntersection s.moveAll.ball.rect s.moveAll.leftPaddle.rect = false := by
    apply SDL_HasIntersection_apart
    left
    have : s.moveAll.leftPaddle.rect.x = 50 := lx
    omega
  have h2 : SDL_HasIntersection s.moveAll.ball.rect s.moveAll.rightPaddle.rect = false := by
    apply SDL_HasIntersection_apart
    left
    have : s.moveAll.rightPaddle.rect.x = 735 := rx
    omega
  have hc : s.moveAll.collide = s.moveAll := by
    unfold Pong.collide
    rw [h1, h2]
    rfl
  have hu : (s.update g).1 =
      { s.moveAll with rightScore := s.moveAll.rightScore + 1,
                       ball := (s.moveAll.ball.resetBall g).1 } := by
    have := (Pong.score_cases s.moveAll g bw).1 (by omega)
    unfold Pong.update
    rw [hc]
    exact this
  have hrect := Ball.resetBall_rect s.moveAll.ball g
  obtain ⟨v1, v2⟩ := Ball.resetBall_vel s.moveAll.ball g
  have h393 : cdiv SCREEN_WIDTH 2 - cdiv BALL_SIZE 2 = 393 := by decide
  have h293 : cdiv SCREEN_HEIGHT 2 - cdiv BALL_SIZE 2 = 293 := by decide
  rw [hu, h393, h293]
  refine ⟨?_, hl, ?_, ?_, ?_, ?_, ?_, ?_⟩
  · show s.rightScore + 1 = 1
    rw [hr]; rfl
  · show (s.moveAll.ball.resetBall g).1.rect.x = 393
    rw [hrect]
  · show (s.moveAll.ball.resetBall g).1.rect.y = 293
    rw [hrect]
  · show (s.moveAll.ball.resetBall g).1.rect.x = 393
    rw [hrect]
  · show (s.moveAll.ball.resetBall g).1.rect.y = 293
    rw [hrect]
  · show |(s.moveAll.ball.resetBall g).1.xVel| = BALL_SPEED
    rcases v1 with v | v <;> rw [v] <;> simp [BALL_SPEED]
  · show |(s.moveAll.ball.resetBall g).1.yVel| = BALL_SPEED
    rcases v2 with v | v <;> rw [v] <;> simp [BALL_SPEED]

theorem Pong.update_left_edge_scores_witness :
    (Pong.atEdge (-5) 5).Sized ∧ (Pong.atEdge (-5) 5).ball.rect.x = 0 ∧
    (Pong.atEdge (-5) 5).ball.rect.y = 300 ∧ (Pong.atEdge (-5) 5).ball.xVel = -BALL_SPEED ∧
    ((Pong.atEdge (-5) 5).update Rand.zeros).1.rightScore = 1 :=
  ⟨by decide, rfl, rfl, by decide,
    (Pong.update_left_edge_scores (Pong.atEdge (-5) 5) Rand.zeros (by decide) rfl rfl rfl
      (by decide)).1⟩

/-- C5: on the Hard and Medium tiers `Pong::moveAIPaddle` is a dead-zone policy with a
strict threshold `T` (`5` on Hard, `PADDLE_HEIGHT/4 = 22` on Medium): with `targetY` the
predicted intercept and `c` the centre of the right paddle, `yVel` becomes `PADDLE_SPEED`
when `targetY - c > T`, `-PADDLE_SPEED` when `targetY - c < -T`, and `0` when
`|targetY - c| ≤ T`.  On Hard, `targetY = c + 6` gives `PADDLE_SPEED` and `targetY = c + 5`
gives `0`. -/
theorem Pong.moveAIPaddle_dead_zone (s : Pong) (g : Rand) (T : Int)
    (hT : (s.aiDifficulty = Difficulty.HARD ∧ T = 5) ∨
          (s.aiDifficulty = Difficulty.MEDIUM ∧ T = cdiv PADDLE_HEIGHT 4)) :
    (s.aiDifficulty = Difficulty.MEDIUM → T = 22) ∧
    (s.ball.predictedYPosition - s.rightPaddle.centerY > T →
      (s.moveAIPaddle g).1.rightPaddle.yVel = PADDLE_SPEED) ∧
    (s.ball.predictedYPosition - s.rightPaddle.centerY < -T →
      (s.moveAIPaddle g).1.rightPaddle.yVel = -PADDLE_SPEED) ∧
    (|s.ball.predictedYPosition - s.rightPaddle.centerY| ≤ T →
      (s.moveAIPaddle g).1.rightPaddle.yVel = 0) ∧
    (s.aiDifficulty = Difficulty.HARD →
      s.ball.predictedYPosition = s.rightPaddle.centerY + 6 →
      (s.moveAIPaddle g).1.rightPaddle.yVel = PADDLE_SPEED) ∧
    (s.aiDifficulty = Difficulty.HARD →
      s.ball.predictedYPosition = s.rightPaddle.centerY + 5 →
      (s.moveAIPaddle g).1.rightPaddle.yVel = 0) := by
  have h22 : cdiv PADDLE_HEIGHT 4 = 22 := by decide
  have hv : (s.moveAIPaddle g).1.rightPaddle.yVel =
      if cabs (s.ball.predictedYPosition - s.rightPaddle.centerY) > T then
        (if s.ball.predictedYPosition > s.rightPaddle.centerY then 5 else -5)
      else 0 := by
    rcases hT with ⟨hd, rfl⟩ | ⟨hd, rfl⟩
    · exact Pong.moveAIPaddle_hard s g hd
    · rw [h22]; exact Pong.moveAIPaddle_medium s g hd
  have hM : s.aiDifficulty = Difficulty.MEDIUM → T = 22 := by
    intro hd
    rcases hT with ⟨h, _⟩ | ⟨_, h⟩
    · rw [hd] at h; cases h
    · rw [h, h22]
  have hH : s.aiDifficulty = Difficulty.HARD → T = 5 := by
    intro hd
    rcases hT with ⟨_, h⟩ | ⟨h, _⟩
    · exact h
    · rw [hd] at h; cases h
  have hpos : 0 < T := by
    rcases hT with ⟨_, h⟩ | ⟨_, h⟩
    · omega
    · rw [h, h22]; omega
  rw [← cabs_eq_abs, hv]
  simp only [cabs, PADDLE_SPEED]
  refine ⟨hM, ?_, ?_, ?_, ?_, ?_⟩
  · intro h
    split_ifs <;> omega
  · intro h
    split_ifs <;> omega
  · intro h
    split_ifs at * <;> omega
  · intro hd ht
    have := hH hd
    split_ifs <;> omega
  · intro hd ht
    have := hH hd
    split_ifs <;> omega

theorem Pong.moveAIPaddle_dead_zone_witness :
    (Pong.aiAt Difficulty.HARD 428).ball.predictedYPosition =
      (Pong.aiAt Difficulty.HARD 428).rightPaddle.centerY + 6 ∧
    ((Pong.aiAt Difficulty.HARD 428).moveAIPaddle Rand.zeros).1.rightPaddle.yVel =
      PADDLE_SPEED := by
  have ht : (Pong.aiAt Difficulty.HARD 428).ball.predictedYPosition =
      (Pong.aiAt Difficulty.HARD 428).rightPaddle.centerY + 6 := by
    rw [(Pong.aiAt_target Difficulty.HARD 428).1, (Pong.aiAt_target Difficulty.HARD 428).2]
    rfl
  exact ⟨ht, (Pong.moveAIPaddle_dead_zone (Pong.aiAt Difficulty.HARD 428) Rand.zeros 5
    (Or.inl ⟨rfl, rfl⟩)).2.2.2.2.1 rfl ht⟩

/-- C6, as the claim states it, fails on the Easy tier: with the right paddle centred
exactly on the predicted intercept (`targetY = paddleCenter = 479`) and a roll below `3`,
`Pong::moveAIPaddle` sets `yVel = -2`, which is neither `0` nor directed toward the
target. -/
theorem Pong.moveAIPaddle_easy_counterexample :
    (Pong.aiAt Difficulty.EASY 434).aiDifficulty = Difficulty.EASY ∧
    (Pong.aiAt Difficulty.EASY 434).ball.predictedYPosition =
      (Pong.aiAt Difficulty.EASY 434).rightPaddle.centerY ∧
    (rand Rand.zeros).1 % 10 < 3 ∧
    ((Pong.aiAt Difficulty.EASY 434).moveAIPaddle Rand.zeros).1.rightPaddle.yVel = -2 ∧
    ¬ (((Pong.aiAt Difficulty.EASY 434).moveAIPaddle Rand.zeros).1.rightPaddle.yVel < 0 →
        (Pong.aiAt Difficulty.EASY 434).ball.predictedYPosition <
          (Pong.aiAt Difficulty.EASY 434).rightPaddle.centerY) := by
  have ht := (Pong.aiAt_target Difficulty.EASY 434).1
  have hc : (Pong.aiAt Difficulty.EASY 434).rightPaddle.centerY = 479 := rfl
  have hv : ((Pong.aiAt Difficulty.EASY 434).moveAIPaddle Rand.zeros).1.rightPaddle.yVel
      = -2 := by
    rw [Pong.moveAIPaddle_easy _ _ rfl, ht, hc]
    decide
  refine ⟨rfl, by rw [ht, hc], by decide, hv, ?_⟩
  rw [hv, ht, hc]
  decide

/-- C6, amended: in every tier, for every game state and every roll, whenever `targetY`
differs from `paddleCenter` the velocity `Pong::moveAIPaddle` assigns to the right paddle
is `0` or directed toward the target (`yVel > 0` only if `targetY > paddleCenter`,
`yVel < 0` only if `targetY < paddleCenter`); on Medium and Hard the velocity is `0` when
`targetY = paddleCenter` and exactly at the tier's threshold (`|targetY - paddleCenter|`
equal to `22` or `5`).  On Easy the paddle moves only when the roll `rand() % 10` is below
`3`, with `|yVel| = PADDLE_SPEED/2 = 2`, and has velocity `0` for every other roll. -/
theorem Pong.moveAIPaddle_toward (s : Pong) (g : Rand) :
    (0 < (s.moveAIPaddle g).1.rightPaddle.yVel →
      s.ball.predictedYPosition > s.rightPaddle.centerY) ∧
    ((s.moveAIPaddle g).1.rightPaddle.yVel < 0 →
      s.ball.predictedYPosition ≠ s.rightPaddle.centerY →
      s.ball.predictedYPosition < s.rightPaddle.centerY) ∧
    (s.aiDifficulty ≠ Difficulty.EASY →
      s.ball.predictedYPosition = s.rightPaddle.centerY →
      (s.moveAIPaddle g).1.rightPaddle.yVel = 0) ∧
    (s.aiDifficulty = Difficulty.MEDIUM →
      |s.ball.predictedYPosition - s.rightPaddle.centerY| = cdiv PADDLE_HEIGHT 4 →
      (s.moveAIPaddle g).1.rightPaddle.yVel = 0) ∧
    (s.aiDifficulty = Difficulty.HARD →
      |s.ball.predictedYPosition - s.rightPaddle.centerY| = 5 →
      (s.moveAIPaddle g).1.rightPaddle.yVel = 0) ∧
    (s.aiDifficulty = Difficulty.EASY →
      ((rand g).1 % 10 < 3 →
        |(s.moveAIPaddle g).1.rightPaddle.yVel| = cdiv PADDLE_SPEED 2 ∧
        |(s.moveAIPaddle g).1.rightPaddle.yVel| = 2) ∧
      (¬ (rand g).1 % 10 < 3 → (s.moveAIPaddle g).1.rightPaddle.yVel = 0)) := by
  have h22 : cdiv PADDLE_HEIGHT 4 = 22 := by decide
  have h2 : cdiv PADDLE_SPEED 2 = 2 := by decide
  simp only [← cabs_eq_abs, h22, h2]
  cases hd : s.aiDifficulty with
  | EASY =>
    rw [Pong.moveAIPaddle_easy s g hd]
    simp only [cabs]
    refine ⟨?_, ?_, ?_, ?_, ?_, ?_⟩
    · intro h; split_ifs at h <;> omega
    · intro h hne; split_ifs at h <;> omega
    · intro h; exact absurd rfl h
    · intro h; cases h
    · intro h; cases h
    · intro _
      constructor
      · intro hr
        rw [if_pos hr]
        split_ifs <;> omega
      · intro hr
        rw [if_neg hr]
  | MEDIUM =>
    rw [Pong.moveAIPaddle_medium s g hd]
    simp only [cabs]
    refine ⟨?_, ?_, ?_, ?_, ?_, ?_⟩
    · intro h; split_ifs at h <;> omega
    · intro h hne; split_ifs at h <;> omega
    · intro _ h; split_ifs <;> omega
    · intro _ h; split_ifs at * <;> omega
    · intro h; cases h
    · intro h; cases h
  | HARD =>
    rw [Pong.moveAIPaddle_hard s g hd]
    simp only [cabs]
    refine ⟨?_, ?_, ?_, ?_, ?_, ?_⟩
    · intro h; split_ifs at h <;> omega
    · intro h hne; split_ifs at h <;> omega
    · intro _ h; split_ifs <;> omega
    · intro h; cases h
    · intro _ h; split_ifs at * <;> omega
    · intro h; cases h

theorem Pong.moveAIPaddle_toward_witness :
    ((Pong.aiAt Difficulty.EASY 400).moveAIPaddle Rand.zeros).1.rightPaddle.yVel = 2 ∧
    (Pong.aiAt Difficulty.EASY 400).ball.predictedYPosition >
      (Pong.aiAt Difficulty.EASY 400).rightPaddle.centerY := by
  have ht := (Pong.aiAt_target Difficulty.EASY 400).1
  have hc : (Pong.aiAt Difficulty.EASY 400).rightPaddle.centerY = 445 := rfl
  have hv : ((Pong.aiAt Difficulty.EASY 400).moveAIPaddle Rand.zeros).1.rightPaddle.yVel
      = 2 := by
    rw [Pong.moveAIPaddle_easy _ _ rfl, ht, hc]
    decide
  exact ⟨hv, (Pong.moveAIPaddle_toward (Pong.aiAt Difficulty.EASY 400) Rand.zeros).1
    (by rw [hv]; decide)⟩

/-- C8: in two-player mode, for any paddles of height `PADDLE_HEIGHT` with
`0 ≤ rect.y ≤ SCREEN_HEIGHT - PADDLE_HEIGHT` (the freshly constructed ones, at `255`, among
them), one frame with no keys pressed, `handleEvents` followed by `update`, leaves both
paddles with `yVel = 0` and with their `rect` unchanged, whatever events are pending. -/
theorem Pong.frame_idle (s : Pong) (events : List Event) (g : Rand)
    (h2p : s.isPlayerTwoAI = false)
    (hlh : s.leftPaddle.rect.h = PADDLE_HEIGHT) (hrh : s.rightPaddle.rect.h = PADDLE_HEIGHT)
    (hl0 : 0 ≤ s.leftPaddle.rect.y)
    (hl1 : s.leftPaddle.rect.y ≤ SCREEN_HEIGHT - PADDLE_HEIGHT)
    (hr0 : 0 ≤ s.rightPaddle.rect.y)
    (hr1 : s.rightPaddle.rect.y ≤ SCREEN_HEIGHT - PADDLE_HEIGHT) :
    (s.handleEvents events KeyState.none g).1.leftPaddle.yVel = 0 ∧
    (s.handleEvents events KeyState.none g).1.rightPaddle.yVel = 0 ∧
    (s.frame events KeyState.none g).1.leftPaddle.yVel = 0 ∧
    (s.frame events KeyState.none g).1.rightPaddle.yVel = 0 ∧
    (s.frame events KeyState.none g).1.leftPaddle.rect = s.leftPaddle.rect ∧
    (s.frame events KeyState.none g).1.rightPaddle.rect = s.rightPaddle.rect := by
  obtain ⟨e1, e2, e3⟩ := Pong.handleEvent_foldl_keeps events s
  have hh : (s.handleEvents events KeyState.none g).1 =
      { events.foldl Pong.handleEvent s with
        leftPaddle := { s.leftPaddle with yVel := 0 },
        rightPaddle := { s.rightPaddle with yVel := 0 } } := by
    simp only [Pong.handleEvents, KeyState.none, e1, e2, e3, h2p, Bool.false_eq_true,
      if_false]
  have hL : ({ s.leftPaddle with yVel := 0 } : Paddle).move = { s.leftPaddle with yVel := 0 } :=
    Paddle.move_rest _ rfl hlh hl0 hl1
  have hR : ({ s.rightPaddle with yVel := 0 } : Paddle).move =
      { s.rightPaddle with yVel := 0 } :=
    Paddle.move_rest _ rfl hrh hr0 hr1
  obtain ⟨u1, u2⟩ := Pong.update_paddles (s.handleEvents events KeyState.none g).1
    (s.handleEvents events KeyState.none g).2
  have f1 : (s.frame events KeyState.none g).1.leftPaddle = { s.leftPaddle with yVel := 0 } := by
    show ((s.handleEvents events KeyState.none g).1.update _).1.leftPaddle = _
    rw [u1, hh]
    exact hL
  have f2 : (s.frame events KeyState.none g).1.rightPaddle =
      { s.rightPaddle with yVel := 0 } := by
    show ((s.handleEvents events KeyState.none g).1.update _).1.rightPaddle = _
    rw [u2, hh]
    exact hR
  rw [f1, f2, hh]
  exact ⟨rfl, rfl, rfl, rfl, rfl, rfl⟩

theorem Pong.frame_idle_witness :
    Pong.fresh.isPlayerTwoAI = false ∧ Pong.fresh.leftPaddle.rect.y = 255 ∧
    Pong.fresh.rightPaddle.rect.y = 255 ∧
    (Pong.fresh.frame [] KeyState.none Rand.zeros).1.leftPaddle.rect =
      Pong.fresh.leftPaddle.rect ∧
    (Pong.fresh.frame [] KeyState.none Rand.zeros).1.rightPaddle.rect =
      Pong.fresh.rightPaddle.rect :=
  ⟨rfl, by decide, by decide,
    (Pong.frame_idle Pong.fresh [] Rand.zeros rfl rfl rfl (by decide) (by decide) (by decide)
      (by decide)).2.2.2.2.1,
    (Pong.frame_idle Pong.fresh [] Rand.zeros rfl rfl rfl (by decide) (by decide) (by decide)
      (by decide)).2.2.2.2.2⟩

/-- C9: for every state whose rectangles have their constructed sizes and whose paddles are
at their constructed `x` (`50` and `735`), when the moved ball overlaps a paddle (the left
one having priority) `Pong::update` negates `xVel`, adds
`(ballCenterY - hitPaddleCenterY)/10`, truncated toward zero, to `yVel`, and places the
ball flush against the paddle it hit: `rect.x = 65` after a left-paddle hit, `rect.x = 720`
after a right-paddle hit.  The half-screen test picks the side of the paddle that was hit,
and the ball no longer overlaps that paddle afterwards. -/
theorem Pong.update_collision (s : Pong) (g : Rand) (hs : s.Sized) :
    (SDL_HasIntersection s.moveAll.ball.rect s.moveAll.leftPaddle.rect = true →
      (s.update g).1.ball.xVel = -s.ball.xVel ∧
      (s.update g).1.ball.yVel = s.moveAll.ball.yVel +
        cdiv (s.moveAll.ball.rect.y + cdiv s.moveAll.ball.rect.h 2 -
              s.moveAll.leftPaddle.centerY) 10 ∧
      s.moveAll.ball.rect.x < cdiv SCREEN_WIDTH 2 ∧
      (s.update g).1.ball.rect.x = s.leftPaddle.rect.x + s.leftPaddle.rect.w ∧
      (s.update g).1.ball.rect.x = 65 ∧
      (s.update g).1.ball.rect.y = s.moveAll.ball.rect.y ∧
      SDL_HasIntersection (s.update g).1.ball.rect (s.update g).1.leftPaddle.rect = false) ∧
    (SDL_HasIntersection s.moveAll.ball.rect s.moveAll.leftPaddle.rect = false →
      SDL_HasIntersection s.moveAll.ball.rect s.moveAll.rightPaddle.rect = true →
      (s.update g).1.ball.xVel = -s.ball.xVel ∧
      (s.update g).1.ball.yVel = s.moveAll.ball.yVel +
        cdiv (s.moveAll.ball.rect.y + cdiv s.moveAll.ball.rect.h 2 -
              s.moveAll.rightPaddle.centerY) 10 ∧
      ¬ s.moveAll.ball.rect.x < cdiv SCREEN_WIDTH 2 ∧
      (s.update g).1.ball.rect.x = s.rightPaddle.rect.x - s.ball.rect.w ∧
      (s.update g).1.ball.rect.x = 720 ∧
      (s.update g).1.ball.rect.y = s.moveAll.ball.rect.y ∧
      SDL_HasIntersection (s.update g).1.ball.rect (s.update g).1.rightPaddle.rect = false) := by
  obtain ⟨bw, bh, lx, lw, lh, rx, rw', rh⟩ := hs
  have mbw : s.moveAll.ball.rect.w = 15 := bw
  have mbh : s.moveAll.ball.rect.h = 15 := bh
  have mlx : s.moveAll.leftPaddle.rect.x = 50 := lx
  have mlw : s.moveAll.leftPaddle.rect.w = 15 := lw
  have mlh : s.moveAll.leftPaddle.rect.h = 90 := lh
  have mrx : s.moveAll.rightPaddle.rect.x = 735 := rx
  have mrw : s.moveAll.rightPaddle.rect.w = 15 := rw'
  have mrh : s.moveAll.rightPaddle.rect.h = 90 := rh
  have h400 : cdiv SCREEN_WIDTH 2 = 400 := by decide
  have hcw : s.moveAll.collide.ball.rect.w = BALL_SIZE :=
    (Pong.collide_ball_size s.moveAll).1.trans bw
  obtain ⟨pl, pr⟩ := Pong.update_paddles s g
  constructor
  · intro hi
    have hov := (SDL_HasIntersection_iff _ _ (by omega) (by omega)).mp hi
    have hc := Pong.collide_left s.moveAll hi
    have hlt : s.moveAll.ball.rect.x < cdiv SCREEN_WIDTH 2 := by rw [h400]; omega
    rw [if_pos hlt, mlx, mlw] at hc
    have hx : s.moveAll.collide.ball.rect.x = 65 := by rw [hc]; rfl
    have hu : s.update g = (s.moveAll.collide, g) :=
      (Pong.score_cases s.moveAll.collide g hcw).2.2 (by omega)
        (by rw [hx]; decide)
    rw [hu]
    show s.moveAll.collide.ball.xVel = _ ∧ s.moveAll.collide.ball.yVel = _ ∧ _ ∧
      s.moveAll.collide.ball.rect.x = _ ∧ s.moveAll.collide.ball.rect.x = _ ∧
      s.moveAll.collide.ball.rect.y = _ ∧
      SDL_HasIntersection s.moveAll.collide.ball.rect s.moveAll.collide.leftPaddle.rect = _
    rw [(Pong.collide_paddles s.moveAll).1, hc]
    refine ⟨rfl, rfl, hlt, ?_, rfl, rfl, ?_⟩
    · show (65 : Int) = s.leftPaddle.rect.x + s.leftPaddle.rect.w
      rw [lx, lw]; rfl
    · apply SDL_HasIntersection_apart
      right
      show s.moveAll.leftPaddle.rect.x + s.moveAll.leftPaddle.rect.w ≤ 65
      omega
  · intro hl hi
    have hov := (SDL_HasIntersection_iff _ _ (by omega) (by omega)).mp hi
    have hc := Pong.collide_right s.moveAll hl hi
    have hge : ¬ s.moveAll.ball.rect.x < cdiv SCREEN_WIDTH 2 := by rw [h400]; omega
    rw [if_neg hge, mrx, mbw] at hc
    have hx : s.moveAll.collide.ball.rect.x = 720 := by rw [hc]; rfl
    have hu : s.update g = (s.moveAll.collide, g) :=
      (Pong.score_cases s.moveAll.collide g hcw).2.2 (by omega)
        (by rw [hx]; decide)
    rw [hu]
    show s.moveAll.collide.ball.xVel = _ ∧ s.moveAll.collide.ball.yVel = _ ∧ _ ∧
      s.moveAll.collide.ball.rect.x = _ ∧ s.moveAll.collide.ball.rect.x = _ ∧
      s.moveAll.collide.ball.rect.y = _ ∧
      SDL_HasIntersection s.moveAll.collide.ball.rect s.moveAll.collide.rightPaddle.rect = _
    rw [(Pong.collide_paddles s.moveAll).2, hc]
    refine ⟨rfl, rfl, hge, ?_, rfl, rfl, ?_⟩
    · show (735 - 15 : Int) = s.rightPaddle.rect.x - s.ball.rect.w
      rw [rx, bw]; rfl
    · apply SDL_HasIntersection_apart
      left
      show (735 - 15 : Int) + s.moveAll.ball.rect.w ≤ s.moveAll.rightPaddle.rect.x
      omega

theorem Pong.update_collision_witness :
    (Pong.ballAt 68 (-5)).Sized ∧
    SDL_HasIntersection (Pong.ballAt 68 (-5)).moveAll.ball.rect
      (Pong.ballAt 68 (-5)).moveAll.leftPaddle.rect = true ∧
    (Pong.ballAt 68 (-5)).moveAll.ball.rect.x = 63 ∧
    ((Pong.ballAt 68 (-5)).update Rand.zeros).1.ball.yVel = 7 ∧
    ((Pong.ballAt 68 (-5)).update Rand.zeros).1.ball.rect.x = 65 :=
  ⟨by decide, by decide, by decide, by decide,
    ((Pong.update_collision (Pong.ballAt 68 (-5)) Rand.zeros (by decide)).1
      (by decide)).2.2.2.2.1⟩

end PongGame
